import Mathlib

/-!
# Verification of the `sase_github` workspace plugin

A shallow embedding, in Lean 4, of the reference-resolution, workspace
allocation, run-lifecycle and submission logic of the `sase_github`
repository (`src/sase_github/workspace_plugin.py`,
`src/sase_github/runner_provider.py`, `src/sase_github/plugin.py`,
`src/sase_github/scripts/gh_setup.py`), together with theorems settling
the specification claims about that logic.

External collaborators (the host `sase` package's project-record store,
change-record store, pool registry, filesystem, the `git`/`gh` binaries)
are modelled as explicit environment records supplying the outcome of
each external call; the plugin's own control flow is translated
statement by statement from the Python source.
-/

namespace SaseGithub

/-! ## Python string primitives

Faithful models of the Python `str` operations the plugin uses:
`"/" in s`, `s.strip("/")`, `s.rstrip("/")`, `s.split("/")`, and the
whitespace `s.strip()`. Strings are handled through their character
lists. -/

/-- Python `c in s` for a single-character `c`: character membership. -/
def pyContainsChar (c : Char) (s : String) : Bool :=
  s.data.contains c

/-- Python `s.lstrip(c)` on a character list: drop leading `c`s. -/
def pyLstrip (c : Char) (l : List Char) : List Char :=
  l.dropWhile (fun x => x = c)

/-- Python `s.rstrip(c)` on a character list: drop trailing `c`s. -/
def pyRstrip (c : Char) (l : List Char) : List Char :=
  (l.reverse.dropWhile (fun x => x = c)).reverse

/-- Python `s.strip(c)`: drop leading and trailing `c`s. -/
def pyStrip (c : Char) (l : List Char) : List Char :=
  pyRstrip c (pyLstrip c l)

/-- Python `s.split(sep)` for a one-character separator: split at every
occurrence, keeping empty pieces (`"".split(sep) == [""]`,
`"a//b".split("/") == ["a", "", "b"]`). -/
def pySplit (sep : Char) : List Char → List (List Char)
  | [] => [[]]
  | c :: rest =>
    if c = sep then [] :: pySplit sep rest
    else
      match pySplit sep rest with
      | [] => [[c]]
      | p :: ps => (c :: p) :: ps

/-- The characters Python's no-argument `str.strip()` removes. -/
def pyIsSpace (c : Char) : Bool :=
  c = ' ' || c = '\t' || c = '\n' || c = '\x0b' || c = '\x0c' || c = '\r'

/-- Python `s.strip()` (no argument): strip whitespace from both ends. -/
def pyStripWs (s : String) : String :=
  ⟨((s.data.dropWhile pyIsSpace).reverse.dropWhile pyIsSpace).reverse⟩

/-- Python truthiness of an optional string (`None` and `""` are falsy). -/
def pyTruthy (o : Option String) : Bool :=
  !(o.getD "").isEmpty

/-! ## Data model

`ResolvedRef` mirrors `sase.workspace_provider.ResolvedRef` as the
resolver populates it. -/

/-- Result of `resolve_gh_ref`. -/
structure ResolvedRef where
  project_file : String
  project_name : String
  primary_workspace_dir : String
  checkout_target : String
  deriving Repr, DecidableEq

/-- One change record as returned by `find_all_changespecs()`. -/
structure ChangeSpecRec where
  name : String
  file_path : String
  project_basename : String
  deriving Repr, DecidableEq

/-- Environment for `resolve_gh_ref`: the state of, and answers given
by, the external collaborators it consults (project-record store,
filesystem, default-branch query, change records, `git clone`,
`os.path.normpath`, configured GitHub username, `Path.home()`). -/
structure ResolveEnv where
  home : String
  /-- `parse_workspace_dir(project_file)` (`None` → `none`). -/
  workspaceDirOf : String → Option String
  /-- `os.path.isdir` / `Path.is_dir`. -/
  isDir : String → Bool
  /-- `Path.exists`. -/
  fileExists : String → Bool
  /-- `get_default_branch(dir)`. -/
  defaultBranch : String → String
  /-- `find_all_changespecs()`. -/
  changespecs : List ChangeSpecRec
  /-- whether `git clone` succeeds when `_clone_gh_repo` runs it. -/
  cloneOk : Bool
  /-- stderr of a failing `git clone`. -/
  cloneErr : String
  /-- `os.path.normpath`. -/
  normpath : String → String
  /-- `get_github_username()`. -/
  ghUsername : Option String

/-- `~/.sase/projects` (`projects_base` in `resolve_gh_ref`). -/
def projectsBase (env : ResolveEnv) : String :=
  env.home ++ "/.sase/projects"

/-- `str(Path.home() / "projects" / "github" / user / project) + "/"`. -/
def derivedWorkspaceDir (env : ResolveEnv) (user project : String) : String :=
  env.home ++ "/projects/github/" ++ user ++ "/" ++ project ++ "/"

/-- `str(projects_base / project / f"{project}.gp")`. -/
def mode1ProjectFile (env : ResolveEnv) (project : String) : String :=
  projectsBase env ++ "/" ++ project ++ "/" ++ project ++ ".gp"

/-- The clone URL chosen by `_clone_gh_repo`: SSH form when the
configured username is truthy and equals `user`, HTTPS otherwise. -/
def cloneUrl (env : ResolveEnv) (user project : String) : String :=
  if pyTruthy env.ghUsername && (env.ghUsername.getD "" == user) then
    "git@github.com:" ++ user ++ "/" ++ project ++ ".git"
  else
    "https://github.com/" ++ user ++ "/" ++ project ++ ".git"

/-- The `existing and os.path.normpath(existing) != os.path.normpath(
primary_workspace_dir)` test of mode 1. -/
def mode1Conflict (env : ResolveEnv) (user project : String) : Bool :=
  pyTruthy (env.workspaceDirOf (mode1ProjectFile env project)) &&
    !(env.normpath ((env.workspaceDirOf (mode1ProjectFile env project)).getD "")
        == env.normpath (derivedWorkspaceDir env user project))

/-- The conflict error raised by mode 1, naming both paths. -/
def conflictMsg (env : ResolveEnv) (user project : String) : String :=
  "WORKSPACE_DIR conflict for '" ++ project ++ "': existing="
    ++ (env.workspaceDirOf (mode1ProjectFile env project)).getD ""
    ++ ", derived=" ++ derivedWorkspaceDir env user project

/-- `not os.path.isdir(primary_workspace_dir.rstrip("/"))`. -/
def mode1NeedClone (env : ResolveEnv) (user project : String) : Bool :=
  !env.isDir (String.mk (pyRstrip '/' (derivedWorkspaceDir env user project).data))

/-- The `RuntimeError` message `_clone_gh_repo` raises on clone
failure: the url, plus the stripped stderr when present. -/
def cloneFailMsg (env : ResolveEnv) (user project : String) : String :=
  "git clone failed for " ++ cloneUrl env user project
    ++ (if env.cloneErr ≠ "" then ": " ++ pyStripWs env.cloneErr else "")

/-- Filesystem effect of a successful `git clone`: the workspace
directory now exists. -/
def cloneEnv (env : ResolveEnv) (user project : String) : ResolveEnv :=
  { env with isDir := fun d =>
      d = String.mk (pyRstrip '/' (derivedWorkspaceDir env user project).data)
        || env.isDir d }

/-- Store effect of `set_workspace_dir(project_file, dir)`. -/
def setWsDir (base : ResolveEnv) (pf dir : String) : ResolveEnv :=
  { base with workspaceDirOf := fun f =>
      if f = pf then some dir else base.workspaceDirOf f }

/-- Mode 1 of `resolve_gh_ref` (`workspace_plugin.py` lines 295-321),
after the reference has been split into `user` and `project`: conflict
check against the recorded workspace directory, clone when the derived
directory is absent (raising the clone tool's error on failure),
persist the directory, and build the `ResolvedRef`. Returns the result
together with the updated external state. -/
def resolveMode1 (env : ResolveEnv) (user project : String) :
    Except String ResolvedRef × ResolveEnv :=
  if mode1Conflict env user project then
    (.error (conflictMsg env user project), env)
  else if mode1NeedClone env user project && !env.cloneOk then
    (.error (cloneFailMsg env user project), env)
  else
    (.ok { project_file := mode1ProjectFile env project,
           project_name := project,
           primary_workspace_dir := derivedWorkspaceDir env user project,
           checkout_target := env.defaultBranch (derivedWorkspaceDir env user project) },
     setWsDir
       (if mode1NeedClone env user project then cloneEnv env user project else env)
       (mode1ProjectFile env project)
       (derivedWorkspaceDir env user project))

/-- `project_dir = projects_base / gh_ref` (mode 2). -/
def shorthandDir (env : ResolveEnv) (gh_ref : String) : String :=
  projectsBase env ++ "/" ++ gh_ref

/-- `project_file_path = project_dir / f"{gh_ref}.gp"` (mode 2). -/
def shorthandFile (env : ResolveEnv) (gh_ref : String) : String :=
  shorthandDir env gh_ref ++ "/" ++ gh_ref ++ ".gp"

/-- Mode 3 of `resolve_gh_ref` (`workspace_plugin.py` lines 338-353):
search the change records for one named `gh_ref`; fail when its project
records no workspace directory; fail with "Cannot resolve" when no
record matches. -/
def resolveMode3 (env : ResolveEnv) (gh_ref : String) :
    Except String ResolvedRef × ResolveEnv :=
  match env.changespecs.find? (fun cs => cs.name == gh_ref) with
  | some cs =>
    if pyTruthy (env.workspaceDirOf cs.file_path) then
      (.ok { project_file := cs.file_path, project_name := cs.project_basename,
             primary_workspace_dir := (env.workspaceDirOf cs.file_path).getD "",
             checkout_target := "origin/" ++ gh_ref }, env)
    else
      (.error ("ChangeSpec '" ++ gh_ref ++ "' found in " ++ cs.file_path
          ++ " but WORKSPACE_DIR is not set"), env)
  | none => (.error ("Cannot resolve gh_ref '" ++ gh_ref ++ "'"), env)

/-- `resolve_gh_ref` (`workspace_plugin.py` lines 269-353): dispatch on
the three reference forms. Mode 1 fires when the reference contains a
path separator; mode 2 when a project shorthand directory and file
exist with a truthy recorded workspace directory; mode 3 otherwise. -/
def resolve_gh_ref (env : ResolveEnv) (gh_ref : String) :
    Except String ResolvedRef × ResolveEnv :=
  if pyContainsChar '/' gh_ref then
    match pySplit '/' (pyStrip '/' gh_ref.data) with
    | [u, p] => resolveMode1 env (String.mk u) (String.mk p)
    | _ =>
      (.error ("Invalid repo path '" ++ gh_ref ++ "': expected 'user/project'"),
       env)
  else
    if env.isDir (shorthandDir env gh_ref) &&
        env.fileExists (shorthandFile env gh_ref) then
      if pyTruthy (env.workspaceDirOf (shorthandFile env gh_ref)) then
        (.ok { project_file := shorthandFile env gh_ref, project_name := gh_ref,
               primary_workspace_dir :=
                 (env.workspaceDirOf (shorthandFile env gh_ref)).getD "",
               checkout_target :=
                 env.defaultBranch
                   ((env.workspaceDirOf (shorthandFile env gh_ref)).getD "") },
         env)
      else
        resolveMode3 env gh_ref
    else
      resolveMode3 env gh_ref

/-! ## Runner provider (`runner_provider.py`) -/

/-- `sase.runner_provider.RunnerContext` as the plugin populates and
reads it. -/
structure RunnerContext where
  project_name : String := ""
  project_file : String := ""
  workspace_dir : String := ""
  workspace_num : Nat := 0
  checkout_target : String := ""
  primary_workspace_dir : String := ""
  should_release : Bool := true
  head_before : String := ""
  deriving Repr, DecidableEq

/-- `sase.runner_provider.PostAgentResult`. `meta` is the mapping's
insertion-ordered association list. -/
structure PostAgentResult where
  diff_path : Option String
  meta : List (String × String)
  deriving Repr, DecidableEq

/-- Arguments of one `release_workspace(...)` call. -/
structure ReleaseCall where
  project_file : String
  workspace_num : Nat
  workflow_name : String
  cl_name : Option String
  deriving Repr, DecidableEq

/-- Arguments of one `claim_workspace(...)` call. -/
structure ClaimCall where
  project_file : String
  workspace_num : Nat
  workflow_name : String
  pid : Nat
  cl_name : Option String
  pinned : Bool
  deriving Repr, DecidableEq

/-- Output of one external `git` invocation, as `subprocess` reports
it: exit status and captured stdout. -/
structure GitCmdResult where
  returncode : Int := 0
  stdout : String := ""
  deriving Repr, DecidableEq

/-- The host's generic git runner `_run_git(args, cwd, check=True)`
follows `subprocess.run` semantics (the same convention this
repository's own `_clone_gh_repo` relies on): with `check=True` a
nonzero exit status raises `CalledProcessError`, otherwise the
completed process's stdout is available. -/
def runGitChecked (r : GitCmdResult) : Except String String :=
  if r.returncode = 0 then .ok r.stdout
  else .error "CalledProcessError: git"

/-- Environment for `GitHubRunnerProvider.post_agent`: outcomes of the
external calls it makes (`_capture_git_diff`, `git rev-parse HEAD`,
`git log -1 --format=%s HEAD`). -/
structure PostEnv where
  diffPath : Option String := none
  revParse : GitCmdResult := {}
  logSubject : GitCmdResult := {}

/-- The `release_workspace` call `post_agent` makes when
`ctx.should_release` holds (`runner_provider.py` lines 108-118): the
change-id is `checkout_target` unless that target contains `/`. -/
def postAgentRelease (ctx : RunnerContext) : Option ReleaseCall :=
  if ctx.should_release then
    some { project_file := ctx.project_file,
           workspace_num := ctx.workspace_num,
           workflow_name := "gh-" ++ ctx.checkout_target,
           cl_name :=
             if pyContainsChar '/' ctx.checkout_target then none
             else some ctx.checkout_target }
  else none

/-- The metadata/diff part of `post_agent` (`runner_provider.py` lines
120-141): always emit `meta_workspace`; when `head_before` is set,
re-read the head (checked git call) and, if it moved, read the newest
commit's subject (checked git call), adding `meta_commit_message` when
that subject is non-empty. -/
def postAgentBody (env : PostEnv) (ctx : RunnerContext) :
    Except String PostAgentResult :=
  let base : List (String × String) :=
    [("meta_workspace", toString ctx.workspace_num)]
  if ctx.head_before ≠ "" then
    match runGitChecked env.revParse with
    | .error e => .error e
    | .ok out =>
      if pyStripWs out ≠ ctx.head_before then
        match runGitChecked env.logSubject with
        | .error e => .error e
        | .ok out2 =>
          if pyStripWs out2 ≠ "" then
            .ok { diff_path := env.diffPath,
                  meta := base ++ [("meta_commit_message", pyStripWs out2)] }
          else .ok { diff_path := env.diffPath, meta := base }
      else .ok { diff_path := env.diffPath, meta := base }
  else .ok { diff_path := env.diffPath, meta := base }

/-- `GitHubRunnerProvider.post_agent` (`runner_provider.py` lines
107-141). The first component records the `release_workspace` call it
performs (if any); the second is the returned `PostAgentResult`, or the
error of an uncaught `CalledProcessError` from a checked git query. -/
def post_agent (env : PostEnv) (ctx : RunnerContext) :
    Option ReleaseCall × Except String PostAgentResult :=
  (postAgentRelease ctx, postAgentBody env ctx)

/-- Environment for `allocate_gh_workspace`: the resolved reference,
the TUI pre-allocation environment variables, the registry's and clone
helper's answers, and the boolean `claim_workspace` returns. -/
structure AllocEnv where
  resolved : ResolvedRef
  preAllocated : Bool := false
  preNum : Nat := 0
  preDir : String := ""
  firstAvailable : Nat := 0
  /-- `ensure_git_clone(primary_workspace_dir, workspace_num)`. -/
  ensureClone : String → Nat → String := fun _ _ => ""
  pid : Nat := 0
  /-- what `claim_workspace` returns (ignored by the allocator). -/
  claimOk : Bool := true

/-- `allocate_gh_workspace` (`runner_provider.py` lines 33-79; the same
logic as `scripts/gh_setup.main` lines 18-43). Returns the populated
`RunnerContext` together with the list of `claim_workspace` calls made;
the Python code discards the claim's boolean result. -/
def allocate_gh_workspace (env : AllocEnv) (ref : String) (n : Option Nat)
    (release : Bool) : RunnerContext × List ClaimCall :=
  let project_name := env.resolved.project_name
  let project_file := env.resolved.project_file
  let (workspace_num, workspace_dir) :=
    if env.preAllocated then (env.preNum, env.preDir)
    else
      match n with
      | some k => (k, env.ensureClone env.resolved.primary_workspace_dir k)
      | none => (env.firstAvailable,
          env.ensureClone env.resolved.primary_workspace_dir env.firstAvailable)
  let claim : ClaimCall :=
    { project_file := project_file, workspace_num := workspace_num,
      workflow_name := "gh-" ++ ref, pid := env.pid, cl_name := none,
      pinned := !release }
  ({ project_name := project_name, project_file := project_file,
     workspace_dir := workspace_dir, workspace_num := workspace_num,
     checkout_target := env.resolved.checkout_target,
     primary_workspace_dir := env.resolved.primary_workspace_dir,
     should_release := release }, [claim])

/-! ## GitHub VCS plugin (`plugin.py`) -/

/-- Output of one `GitCommon._run` invocation. -/
structure CmdOut where
  success : Bool := true
  stdout : String := ""
  stderr : String := ""
  deriving Repr, DecidableEq

/-- Modelled from the spec: `GitCommon._to_result` (host code, outside
this repository) converts a failed command's output into a failure pair
carrying the tool's error text, labelled by the command name. -/
def toResult (out : CmdOut) (label : String) : Bool × Option String :=
  (false, some (label ++ " failed: " ++ out.stderr))

/-- Environment for `vcs_mail`: outcomes of the three external commands
it can run, in program order. -/
structure MailEnv where
  push : CmdOut := {}
  prView : CmdOut := {}
  prCreate : CmdOut := {}

/-- `GitHubPlugin.vcs_mail` (`plugin.py` lines 57-69). The second
component is the ordered trace of external commands actually run
(`cwd` is where each runs; it does not influence control flow). -/
def vcs_mail (env : MailEnv) (revision cwd : String) :
    (Bool × Option String) × List String :=
  let pushCmd := "git push -u origin " ++ revision ++ " @ " ++ cwd
  let viewCmd := "gh pr view @ " ++ cwd
  let createCmd := "gh pr create --fill @ " ++ cwd
  if !env.push.success then
    (toResult env.push "git push", [pushCmd])
  else
    if !env.prView.success then
      if !env.prCreate.success then
        (toResult env.prCreate "gh pr create", [pushCmd, viewCmd, createCmd])
      else
        ((true, none), [pushCmd, viewCmd, createCmd])
    else
      ((true, none), [pushCmd, viewCmd])

/-! ## Submission flow (`workspace_plugin.py`, `ws_submit`) -/

/-- Environment for `ws_submit`: the answers of every external
collaborator it consults, in program order. -/
structure SubmitEnv where
  /-- `detect_workflow_type(changespec_file)`. -/
  detectType : Option String := some "gh"
  /-- `find_all_changespecs()`. -/
  changespecs : List ChangeSpecRec := []
  /-- `has_active_children(...)`. -/
  hasActiveChildren : Bool := false
  /-- `parse_workspace_dir(changespec_file)`. -/
  workspaceDir : Option String := some "/ws/"
  /-- `get_first_available_axe_workspace(changespec_file)`. -/
  firstAvailable : Nat := 0
  /-- `get_workspace_directory_for_num` (`.error` = its `RuntimeError`). -/
  wsDirFor : Except String String := .ok "/ws/0"
  /-- what `claim_workspace` returns. -/
  claimOk : Bool := true
  /-- `provider.resolve_revision(...)`. -/
  resolveRevision : String := ""
  /-- `provider.checkout(branch_name, ws_dir)`. -/
  checkout : Bool × Option String := (true, none)
  /-- `get_default_branch(ws_dir)`. -/
  defaultBranchRef : String := "origin/main"
  /-- `_check_existing_pr(ws_dir)`. -/
  hasPr : Bool := true
  /-- `get_github_username()`. -/
  ghUsername : Option String := some "user"
  /-- whether `gh` is missing (`FileNotFoundError` on `gh pr merge`). -/
  mergeFileNotFound : Bool := false
  /-- `gh pr merge` exit status. -/
  mergeRc : Int := 0
  mergeStdout : String := ""
  mergeStderr : String := ""
  /-- `_finalize_submission(changespec, console)`. -/
  finalize : Bool × Option String := (true, none)

/-- Observable outcome of one `ws_submit` run: the returned value
(`none` = the hook declined with `None`), whether the workspace slot
was successfully claimed, and whether it was released. -/
structure SubmitOutcome where
  result : Option (Bool × Option String)
  claimed : Bool
  released : Bool
  deriving Repr, DecidableEq

/-- `_submit_via_pr_merge` (`workspace_plugin.py` lines 371-421):
username check, `gh pr merge --merge --delete-branch`, then
finalization. -/
def submitViaPrMerge (env : SubmitEnv) : Bool × Option String :=
  if !(pyTruthy env.ghUsername) then
    (false,
     some ("Cannot submit GitHub PR: 'github_username' is not configured "
        ++ "in sase.yml. Add 'github_username: <your_username>' to "
        ++ "~/.config/sase/sase.yml"))
  else if env.mergeFileNotFound then
    (false, some "gh command not found")
  else if env.mergeRc ≠ 0 then
    let error_msg :=
      if pyStripWs env.mergeStderr ≠ "" then pyStripWs env.mergeStderr
      else pyStripWs env.mergeStdout
    (false, some (if error_msg ≠ "" then "gh pr merge failed: " ++ error_msg
                  else "gh pr merge failed"))
  else
    env.finalize

/-- `GitHubWorkspacePlugin.ws_submit` (`workspace_plugin.py` lines
89-237): workflow-type gate, changespec lookup, active-children and
workspace-dir preconditions, slot claim, then the `try` block (checkout,
PR check, merge) whose `finally` releases the slot on every path. -/
def ws_submit (env : SubmitEnv) (changespec_name : String) : SubmitOutcome :=
  if env.detectType ≠ some "gh" then
    { result := none, claimed := false, released := false }
  else
    match env.changespecs.find? (fun cs => cs.name == changespec_name) with
    | none =>
      { result := some (false, some ("ChangeSpec '" ++ changespec_name
          ++ "' not found")),
        claimed := false, released := false }
    | some _ =>
      if env.hasActiveChildren then
        { result := some (false, some ("Cannot submit: other ChangeSpecs "
            ++ "have this one as their parent and are not Submitted, "
            ++ "Reverted, or Archived")),
          claimed := false, released := false }
      else if !(pyTruthy env.workspaceDir) then
        { result := some (false, some "WORKSPACE_DIR is not set for this project"),
          claimed := false, released := false }
      else
        match env.wsDirFor with
        | .error e =>
          { result := some (false, some ("Failed to get workspace directory: " ++ e)),
            claimed := false, released := false }
        | .ok _ =>
          if !env.claimOk then
            { result := some (false, some ("Failed to claim workspace #"
                ++ toString env.firstAvailable)),
              claimed := false, released := false }
          else
            -- body of the `try` block; `finally` releases on every path
            let body : Bool × Option String :=
              if !env.checkout.1 then
                -- `f"{error}"` renders Python's `None` as the text "None"
                (false, some ("Failed to checkout branch: "
                    ++ (match env.checkout.2 with
                        | some e => e
                        | none => "None")))
              else if env.hasPr then
                submitViaPrMerge env
              else
                (false, some ("GitHub project has no PR for this branch. "
                    ++ "Create a PR first with #pr."))
            { result := some body, claimed := true, released := true }

/-! ## Lemmas about the Python string primitives -/

theorem pySplit_ne_nil (sep : Char) (l : List Char) : pySplit sep l ≠ [] := by
  induction l with
  | nil => simp [pySplit]
  | cons c rest ih =>
    simp only [pySplit]
    split
    · simp
    · cases h : pySplit sep rest with
      | nil => simp
      | cons p ps => simp

theorem pySplit_eq_single {sep : Char} {l p : List Char}
    (h : pySplit sep l = [p]) : l = p := by
  induction l generalizing p with
  | nil =>
    simp only [pySplit, List.cons.injEq] at h
    exact h.1
  | cons c rest ih =>
    simp only [pySplit] at h
    split at h
    · cases hh : pySplit sep rest with
      | nil => exact absurd hh (pySplit_ne_nil sep rest)
      | cons q qs => rw [hh] at h; simp at h
    · cases hh : pySplit sep rest with
      | nil => exact absurd hh (pySplit_ne_nil sep rest)
      | cons q qs =>
        rw [hh] at h
        simp only [List.cons.injEq] at h
        obtain ⟨h1, h2⟩ := h
        subst h2
        have := ih (p := q) hh
        subst this
        exact h1

theorem pySplit_eq_pair {sep : Char} {l p₁ p₂ : List Char}
    (h : pySplit sep l = [p₁, p₂]) : l = p₁ ++ sep :: p₂ := by
  induction l generalizing p₁ with
  | nil => simp [pySplit] at h
  | cons c rest ih =>
    simp only [pySplit] at h
    split at h
    · rename_i hc
      simp only [List.cons.injEq] at h
      obtain ⟨h1, h2⟩ := h
      subst h1
      have := pySplit_eq_single h2
      subst this
      simp [hc]
    · cases hh : pySplit sep rest with
      | nil => exact absurd hh (pySplit_ne_nil sep rest)
      | cons q qs =>
        rw [hh] at h
        simp only [List.cons.injEq] at h
        obtain ⟨h1, h2⟩ := h
        subst h1
        have := ih (by rw [hh, h2])
        simp [this]

/-- The first character surviving `pyStrip c` is not `c`. -/
theorem pyStrip_head?_ne (c : Char) (m : List Char) {a : Char}
    (h : (pyStrip c m).head? = some a) : a ≠ c := by
  unfold pyStrip pyRstrip pyLstrip at h
  have hpre : ((m.dropWhile (fun x => x = c)).reverse.dropWhile
      (fun x => x = c)).reverse <+: m.dropWhile (fun x => x = c) := by
    have hsuf := List.dropWhile_suffix (l := (m.dropWhile (fun x => x = c)).reverse)
      (p := fun x => x = c)
    have := List.IsSuffix.reverse hsuf
    simpa using this
  obtain ⟨t, ht⟩ := hpre
  have hne : ((m.dropWhile (fun x => x = c)).reverse.dropWhile
      (fun x => x = c)).reverse ≠ [] := by
    intro hnil
    rw [hnil] at h
    simp at h
  have hhead : (m.dropWhile (fun x => x = c)).head? = some a := by
    rw [← ht]
    cases hcase : ((m.dropWhile (fun x => x = c)).reverse.dropWhile
        (fun x => x = c)).reverse with
    | nil => exact absurd hcase hne
    | cons b bs =>
      rw [hcase] at h
      simp only [List.head?] at h
      simp [hcase, List.head?] at h ⊢
      exact h
  have := List.head?_dropWhile_not (p := fun x => x = c) (l := m)
  rw [hhead] at this
  simpa using this

/-- The last character surviving `pyStrip c` is not `c`. -/
theorem pyStrip_getLast?_ne (c : Char) (m : List Char) {a : Char}
    (h : (pyStrip c m).getLast? = some a) : a ≠ c := by
  unfold pyStrip pyRstrip pyLstrip at h
  rw [List.getLast?_reverse] at h
  have := List.head?_dropWhile_not (p := fun x => x = c)
    (l := (m.dropWhile (fun x => x = c)).reverse)
  rw [h] at this
  simpa using this

/-- A two-piece split of a `'/'`-stripped string has two nonempty
pieces. -/
theorem pyStrip_split_pair_ne_nil {c : Char} {m p₁ p₂ : List Char}
    (h : pySplit c (pyStrip c m) = [p₁, p₂]) : p₁ ≠ [] ∧ p₂ ≠ [] := by
  have heq := pySplit_eq_pair h
  constructor
  · intro h1
    subst h1
    have : (pyStrip c m).head? = some c := by rw [heq]; rfl
    exact pyStrip_head?_ne c m this rfl
  · intro h2
    subst h2
    have : (pyStrip c m).getLast? = some c := by
      rw [heq]
      simp [List.getLast?_concat]
    exact pyStrip_getLast?_ne c m this rfl

theorem pyLstrip_replicate_append (c : Char) (n : Nat) (l : List Char) :
    pyLstrip c (List.replicate n c ++ l) = pyLstrip c l := by
  unfold pyLstrip
  rw [List.dropWhile_append]
  simp [List.dropWhile_replicate]

theorem pyRstrip_append_replicate (c : Char) (l : List Char) (n : Nat) :
    pyRstrip c (l ++ List.replicate n c) = pyRstrip c l := by
  unfold pyRstrip
  rw [List.reverse_append, List.reverse_replicate, List.dropWhile_append]
  simp [List.dropWhile_replicate]

/-- Stripping `c` ignores any `c`-padding on either side. -/
theorem pyStrip_pad (c : Char) (i j : Nat) (s : List Char) :
    pyStrip c (List.replicate i c ++ s ++ List.replicate j c) = pyStrip c s := by
  unfold pyStrip
  rw [List.append_assoc, pyLstrip_replicate_append]
  induction s with
  | nil =>
    unfold pyLstrip pyRstrip
    simp [List.dropWhile_replicate]
  | cons a s' ih =>
    by_cases ha : a = c
    · subst ha
      unfold pyLstrip at ih ⊢
      simpa [List.dropWhile_cons] using ih
    · have h1 : pyLstrip c ((a :: s') ++ List.replicate j c) =
          (a :: s') ++ List.replicate j c := by
        unfold pyLstrip
        simp [List.dropWhile_cons, ha]
      have h2 : pyLstrip c (a :: s') = a :: s' := by
        unfold pyLstrip
        simp [List.dropWhile_cons, ha]
      rw [h1, h2]
      exact pyRstrip_append_replicate c (a :: s') j

/-! ## Lemmas about the resolver -/

theorem pyTruthy_of_ne_empty {s : String} (h : s ≠ "") :
    pyTruthy (some s) = true := by
  unfold pyTruthy
  cases he : s.isEmpty
  · simp [he]
  · exact absurd ((String.isEmpty_iff s).mp he) h

theorem derivedWorkspaceDir_ne_empty (env : ResolveEnv) (u p : String) :
    derivedWorkspaceDir env u p ≠ "" := by
  unfold derivedWorkspaceDir
  intro h
  have h2 := congrArg String.data h
  simp [String.data_append] at h2

/-- Shape of a successful mode-1 resolution: the returned record is
fully determined by the derived paths, and the updated environment
stores the derived directory and sees the workspace directory on
disk. -/
theorem resolveMode1_ok {env env' : ResolveEnv} {u p : String} {r : ResolvedRef}
    (h : resolveMode1 env u p = (.ok r, env')) :
    r = { project_file := mode1ProjectFile env p, project_name := p,
          primary_workspace_dir := derivedWorkspaceDir env u p,
          checkout_target := env.defaultBranch (derivedWorkspaceDir env u p) } ∧
    env'.home = env.home ∧
    env'.defaultBranch = env.defaultBranch ∧
    env'.normpath = env.normpath ∧
    env'.workspaceDirOf (mode1ProjectFile env p) =
      some (derivedWorkspaceDir env u p) ∧
    env'.isDir (String.mk (pyRstrip '/' (derivedWorkspaceDir env u p).data)) =
      true := by
  unfold resolveMode1 at h
  split at h
  · simp at h
  · split at h
    · simp at h
    · simp only [Prod.mk.injEq, Except.ok.injEq] at h
      obtain ⟨hr, henv⟩ := h
      subst henv
      refine ⟨hr.symm, ?_, ?_, ?_, ?_, ?_⟩ <;>
        by_cases hneed : mode1NeedClone env u p = true <;>
          simp [setWsDir, cloneEnv, hneed, mode1NeedClone] at hneed ⊢ <;>
          simp [hneed]

/-- A mode-1 resolution whose environment already stores the derived
directory and already has the clone on disk succeeds with the derived
record (and makes no clone). -/
theorem resolveMode1_stable (env : ResolveEnv) (u p : String)
    (hw : env.workspaceDirOf (mode1ProjectFile env p) =
      some (derivedWorkspaceDir env u p))
    (hd : env.isDir (String.mk (pyRstrip '/' (derivedWorkspaceDir env u p).data)) =
      true) :
    (resolveMode1 env u p).1 =
      .ok { project_file := mode1ProjectFile env p, project_name := p,
            primary_workspace_dir := derivedWorkspaceDir env u p,
            checkout_target := env.defaultBranch (derivedWorkspaceDir env u p) } := by
  have hconf : mode1Conflict env u p = false := by
    unfold mode1Conflict
    rw [hw]
    simp
  have hneed : mode1NeedClone env u p = false := by
    unfold mode1NeedClone
    rw [hd]
    rfl
  unfold resolveMode1
  rw [hconf, hneed]
  rfl

theorem mode1ProjectFile_congr {env env' : ResolveEnv} (h : env'.home = env.home)
    (x : String) : mode1ProjectFile env' x = mode1ProjectFile env x := by
  unfold mode1ProjectFile projectsBase
  rw [h]

theorem derivedWorkspaceDir_congr {env env' : ResolveEnv} (h : env'.home = env.home)
    (a b : String) : derivedWorkspaceDir env' a b = derivedWorkspaceDir env a b := by
  unfold derivedWorkspaceDir
  rw [h]

/-! ## Claim theorems -/

/-- C1: in the submission flow, once the workspace slot has been
claimed, the slot is released on every exit path of the operation — on
checkout failure, on the missing-PR failure, on merge failure, and on
success — so no terminating execution of `ws_submit` that successfully
claimed a slot leaves it claimed. -/
theorem ws_submit_releases_claimed_slot (env : SubmitEnv) (name : String)
    (h : (ws_submit env name).claimed = true) :
    (ws_submit env name).released = true := by
  unfold ws_submit at h ⊢
  repeat' split at h
  all_goals first
  | rfl
  | simp_all

/-- Witness for C1: a concrete submission that claims the slot (and,
by the theorem, releases it). -/
theorem ws_submit_releases_claimed_slot_witness :
    (ws_submit { changespecs := [⟨"feat", "/f.gp", "proj"⟩] } "feat").claimed = true ∧
    (ws_submit { changespecs := [⟨"feat", "/f.gp", "proj"⟩] } "feat").released = true :=
  ⟨rfl, ws_submit_releases_claimed_slot _ _ rfl⟩

/-- A concrete allocator environment in which the pool registry's claim
operation returns `false`. -/
def claimDeniedEnv : AllocEnv :=
  { resolved := { project_file := "/home/u/.sase/projects/myrepo/myrepo.gp",
                  project_name := "myrepo",
                  primary_workspace_dir := "/home/u/projects/github/u/myrepo/",
                  checkout_target := "main" },
    firstAvailable := 3, pid := 42,
    ensureClone := fun d k => d ++ "__" ++ toString k,
    claimOk := false }

/-- C2 counterexample: with the pool registry's claim returning
`false`, `allocate_gh_workspace` still returns the fully populated
`RunnerContext` — the very same value as when the claim succeeds — and
issues exactly one claim call, so the failure is not reported to the
caller as a failure outcome. -/
theorem allocate_claim_failure_not_reported :
    claimDeniedEnv.claimOk = false ∧
    allocate_gh_workspace claimDeniedEnv "u/myrepo" none true =
      allocate_gh_workspace { claimDeniedEnv with claimOk := true } "u/myrepo" none true ∧
    (allocate_gh_workspace claimDeniedEnv "u/myrepo" none true).1 =
      { project_name := "myrepo",
        project_file := "/home/u/.sase/projects/myrepo/myrepo.gp",
        workspace_dir := "/home/u/projects/github/u/myrepo/__3",
        workspace_num := 3,
        checkout_target := "main",
        primary_workspace_dir := "/home/u/projects/github/u/myrepo/",
        should_release := true } ∧
    (allocate_gh_workspace claimDeniedEnv "u/myrepo" none true).2.length = 1 :=
  ⟨rfl, rfl, rfl, rfl⟩

/-- C2 as amended: the allocator invokes the pool registry's claim
exactly once (so it never retries), but it ignores the claim's boolean
result: the `RunnerContext` it returns is the same whatever the claim
returned, so a claim failure is not reported to the caller. -/
theorem allocate_claim_once_result_ignored (env : AllocEnv) (ref : String)
    (n : Option Nat) (release : Bool) (b : Bool) :
    allocate_gh_workspace { env with claimOk := b } ref n release =
      allocate_gh_workspace env ref n release ∧
    (allocate_gh_workspace env ref n release).2.length = 1 := by
  constructor
  · rfl
  · unfold allocate_gh_workspace
    repeat' split
    all_goals rfl

/-- C5: `post_agent` invokes the pool registry's release operation if
and only if `ctx.should_release` is true, and when it does, the
change-id it passes equals `ctx.checkout_target` exactly when that
target contains no path separator, and is absent otherwise. -/
theorem post_agent_release_policy (env : PostEnv) (ctx : RunnerContext) :
    ((post_agent env ctx).1.isSome ↔ ctx.should_release = true) ∧
    (∀ rc, (post_agent env ctx).1 = some rc →
      ((rc.cl_name = some ctx.checkout_target ↔
          pyContainsChar '/' ctx.checkout_target = false) ∧
       (rc.cl_name = none ↔ pyContainsChar '/' ctx.checkout_target = true))) := by
  unfold post_agent postAgentRelease
  cases hrel : ctx.should_release <;>
    cases hsep : pyContainsChar '/' ctx.checkout_target <;>
      simp [hrel, hsep]

/-- Witness for C5: a concrete post-run with `should_release = true`
and a separator-free checkout target gets that target as change-id. -/
theorem post_agent_release_policy_witness :
    (({ project_file := "/p.gp", workspace_num := 7,
        workflow_name := "gh-main", cl_name := some "main" } : ReleaseCall).cl_name
       = some ("main" : String)) ↔ pyContainsChar '/' "main" = false :=
  ((post_agent_release_policy {}
      { should_release := true, checkout_target := "main",
        project_file := "/p.gp", workspace_num := 7 }).2 _ rfl).1

/-- C7: `vcs_mail` first pushes the revision; if the push fails it
returns failure with the push tool's error text and performs no
further external calls; on push success it checks for an existing PR,
creating one only when none exists (failure text from the create tool
if creation fails); when a PR already exists it makes exactly two
external calls, performs no create or update, and returns success. -/
theorem vcs_mail_call_policy (env : MailEnv) (revision cwd : String) :
    (env.push.success = false →
      vcs_mail env revision cwd =
        ((false, some ("git push failed: " ++ env.push.stderr)),
         ["git push -u origin " ++ revision ++ " @ " ++ cwd])) ∧
    (env.push.success = true → env.prView.success = true →
      vcs_mail env revision cwd =
        ((true, none),
         ["git push -u origin " ++ revision ++ " @ " ++ cwd,
          "gh pr view @ " ++ cwd])) ∧
    (env.push.success = true → env.prView.success = false →
      env.prCreate.success = true →
      vcs_mail env revision cwd =
        ((true, none),
         ["git push -u origin " ++ revision ++ " @ " ++ cwd,
          "gh pr view @ " ++ cwd, "gh pr create --fill @ " ++ cwd])) ∧
    (env.push.success = true → env.prView.success = false →
      env.prCreate.success = false →
      vcs_mail env revision cwd =
        ((false, some ("gh pr create failed: " ++ env.prCreate.stderr)),
         ["git push -u origin " ++ revision ++ " @ " ++ cwd,
          "gh pr view @ " ++ cwd, "gh pr create --fill @ " ++ cwd])) := by
  unfold vcs_mail toResult
  cases h1 : env.push.success <;> cases h2 : env.prView.success <;>
    cases h3 : env.prCreate.success <;> simp [h1, h2, h3]

/-- Witness for C7: the already-existing-PR scenario makes exactly two
external calls and succeeds. -/
theorem vcs_mail_call_policy_witness :
    vcs_mail { push := {}, prView := {}, prCreate := {} } "feature-x" "/ws" =
      ((true, none),
       ["git push -u origin feature-x @ /ws", "gh pr view @ /ws"]) :=
  (vcs_mail_call_policy { push := {}, prView := {}, prCreate := {} }
    "feature-x" "/ws").2.1 rfl rfl

/-- C4: every mapping `post_agent` returns contains `meta_workspace`
with the decimal rendering of `workspace_num`, and contains
`meta_commit_message` if and only if `head_before` is non-empty, the
head commit id re-read at post-run differs from `head_before`, and the
newest commit's subject line is non-empty. -/
theorem post_agent_meta_keys (env : PostEnv) (ctx : RunnerContext)
    (res : PostAgentResult) (h : (post_agent env ctx).2 = .ok res) :
    res.meta.lookup "meta_workspace" = some (toString ctx.workspace_num) ∧
    ((res.meta.lookup "meta_commit_message").isSome ↔
      (ctx.head_before ≠ "" ∧ pyStripWs env.revParse.stdout ≠ ctx.head_before ∧
       pyStripWs env.logSubject.stdout ≠ "")) := by
  have hb : postAgentBody env ctx = .ok res := h
  unfold postAgentBody runGitChecked at hb
  by_cases hhb : ctx.head_before = ""
  · simp only [hhb, ne_eq, not_true_eq_false, if_false, ite_false,
      reduceIte, Except.ok.injEq] at hb
    subst hb
    simp [List.lookup, hhb]
  · by_cases hrc : env.revParse.returncode = 0
    · by_cases hnow : pyStripWs env.revParse.stdout = ctx.head_before
      · simp only [hhb, hrc, hnow, ne_eq, not_false_eq_true, if_true,
          not_true_eq_false, if_false, ite_false, ite_true, reduceIte,
          Except.ok.injEq] at hb
        subst hb
        simp [List.lookup, hhb, hnow]
      · by_cases hrc2 : env.logSubject.returncode = 0
        · by_cases hmsg : pyStripWs env.logSubject.stdout = ""
          · simp only [hhb, hrc, hnow, hrc2, hmsg, ne_eq, not_false_eq_true,
              if_true, not_true_eq_false, if_false, ite_false, ite_true,
              reduceIte, Except.ok.injEq] at hb
            subst hb
            simp [List.lookup, hhb, hnow, hmsg]
          · simp only [hhb, hrc, hnow, hrc2, hmsg, ne_eq, not_false_eq_true,
              if_true, ite_true, reduceIte, Except.ok.injEq] at hb
            subst hb
            simp [List.lookup, hhb, hnow, hmsg]
        · simp [hhb, hrc, hnow, hrc2] at hb
    · simp [hhb, hrc] at hb

/-- Witness for C4: a run where the head moved and the newest subject
is non-empty yields both metadata keys. -/
theorem post_agent_meta_keys_witness :
    (post_agent { revParse := { returncode := 0, stdout := "new\n" },
                  logSubject := { returncode := 0, stdout := "feat: x\n" } }
        { workspace_num := 7, head_before := "old" }).2 =
      .ok { diff_path := none,
            meta := [("meta_workspace", "7"), ("meta_commit_message", "feat: x")] } ∧
    (([("meta_workspace", "7"), ("meta_commit_message", "feat: x")]
        : List (String × String)).lookup "meta_workspace" = some (toString 7) ∧
     ((([("meta_workspace", "7"), ("meta_commit_message", "feat: x")]
        : List (String × String)).lookup "meta_commit_message").isSome ↔
       (("old" : String) ≠ "" ∧ pyStripWs "new\n" ≠ "old" ∧
        pyStripWs "feat: x\n" ≠ ""))) :=
  ⟨rfl, post_agent_meta_keys
    { revParse := { returncode := 0, stdout := "new\n" },
      logSubject := { returncode := 0, stdout := "feat: x\n" } }
    { workspace_num := 7, head_before := "old" }
    { diff_path := none,
      meta := [("meta_workspace", "7"), ("meta_commit_message", "feat: x")] }
    rfl⟩

/-- C6 counterexample: when the post-run head re-read fails (the git
process exits nonzero), `post_agent` raises the runner's
`CalledProcessError` (the queries run with `check=True`) instead of
returning a result without the metadata. -/
theorem post_agent_raises_on_failed_git_query :
    (post_agent { revParse := { returncode := 1, stdout := "" } }
        { head_before := "abc123" }).2 =
      Except.error "CalledProcessError: git" := rfl

/-- C6 as amended: `post_agent` never raises when the post-run git
queries succeed, even when they produce no output — absence of the
metadata is the only effect of an empty subject line — but a git query
whose process fails (nonzero exit) raises, since the queries run with
`check=True`. -/
theorem post_agent_ok_when_queries_succeed (env : PostEnv) (ctx : RunnerContext)
    (h1 : env.revParse.returncode = 0) (h2 : env.logSubject.returncode = 0) :
    ∃ res, (post_agent env ctx).2 = Except.ok res ∧
      (pyStripWs env.logSubject.stdout = "" →
        res.meta.lookup "meta_commit_message" = none) := by
  show ∃ res, postAgentBody env ctx = Except.ok res ∧ _
  unfold postAgentBody runGitChecked
  simp only [h1, h2, if_true, reduceIte]
  repeat' split
  all_goals refine ⟨_, rfl, ?_⟩
  all_goals intro hempty
  all_goals simp_all [List.lookup]

/-- Witness for C6's amended claim: succeeding queries with a blank
subject produce a result with no `meta_commit_message`. -/
theorem post_agent_ok_when_queries_succeed_witness :
    ∃ res, (post_agent { revParse := { returncode := 0, stdout := "new\n" },
                         logSubject := { returncode := 0, stdout := " \n" } }
        { head_before := "old" }).2 = Except.ok res ∧
      (pyStripWs " \n" = "" → res.meta.lookup "meta_commit_message" = none) :=
  post_agent_ok_when_queries_succeed _ _ rfl rfl

/-- C9: for every reference containing a path separator, resolution
proceeds only when the reference splits into exactly two non-empty
components; any other component count fails with the
"expected 'user/project'" error, and the resolver never constructs a
`ResolvedRef` from an empty owner or empty project component. -/
theorem resolve_two_nonempty_components (env : ResolveEnv) (ref : String)
    (hc : pyContainsChar '/' ref = true) :
    ((pySplit '/' (pyStrip '/' ref.data)).length ≠ 2 →
      resolve_gh_ref env ref =
        (.error ("Invalid repo path '" ++ ref ++ "': expected 'user/project'"),
         env)) ∧
    (∀ r env', resolve_gh_ref env ref = (.ok r, env') →
      ∃ u p, pySplit '/' (pyStrip '/' ref.data) = [u, p] ∧ u ≠ [] ∧ p ≠ [] ∧
        r.project_name = String.mk p ∧
        r.primary_workspace_dir =
          derivedWorkspaceDir env (String.mk u) (String.mk p)) := by
  constructor
  · intro hlen
    unfold resolve_gh_ref
    rw [hc]
    cases hps : pySplit '/' (pyStrip '/' ref.data) with
    | nil => exact absurd hps (pySplit_ne_nil _ _)
    | cons a t =>
      cases t with
      | nil => simp
      | cons b t2 =>
        cases t2 with
        | nil => rw [hps] at hlen; simp at hlen
        | cons c t3 => simp
  · intro r env' h
    unfold resolve_gh_ref at h
    rw [hc] at h
    simp only [if_true, reduceIte] at h
    cases hps : pySplit '/' (pyStrip '/' ref.data) with
    | nil => exact absurd hps (pySplit_ne_nil _ _)
    | cons a t =>
      cases t with
      | nil => rw [hps] at h; simp at h
      | cons b t2 =>
        cases t2 with
        | nil =>
          rw [hps] at h
          obtain ⟨hne1, hne2⟩ := pyStrip_split_pair_ne_nil hps
          obtain ⟨hr, -, -, -, -, -⟩ := resolveMode1_ok h
          exact ⟨a, b, rfl, hne1, hne2, by rw [hr], by rw [hr]⟩
        | cons c t3 => rw [hps] at h; simp at h

/-- Witness for C9: the three-component reference `a/b/c` fails with
the "expected 'user/project'" error. -/
theorem resolve_two_nonempty_components_witness :
    resolve_gh_ref
        { home := "/home/u", workspaceDirOf := fun _ => none,
          isDir := fun _ => true, fileExists := fun _ => false,
          defaultBranch := fun _ => "main", changespecs := [],
          cloneOk := true, cloneErr := "", normpath := id,
          ghUsername := none } "a/b/c" =
      (.error ("Invalid repo path '" ++ "a/b/c" ++ "': expected 'user/project'"),
       { home := "/home/u", workspaceDirOf := fun _ => none,
         isDir := fun _ => true, fileExists := fun _ => false,
         defaultBranch := fun _ => "main", changespecs := [],
         cloneOk := true, cloneErr := "", normpath := id,
         ghUsername := none }) :=
  (resolve_two_nonempty_components _ "a/b/c" (by decide)).1 (by decide)

/-- C3: for a repository-path reference whose project record already
stores a workspace directory: a normalized mismatch with the derived
directory fails with a conflict error naming both paths and leaves the
store untouched; on a match (or any successful resolution) the
returned directory is the derived one; and a second resolution after a
successful one returns the same record. -/
theorem resolve_repo_path_conflict_or_stable (env : ResolveEnv) (ref : String)
    (u p : List Char) (w : String)
    (hc : pyContainsChar '/' ref = true)
    (hp : pySplit '/' (pyStrip '/' ref.data) = [u, p])
    (hw : env.workspaceDirOf (mode1ProjectFile env (String.mk p)) = some w)
    (hne : w ≠ "") :
    (env.normpath w ≠
        env.normpath (derivedWorkspaceDir env (String.mk u) (String.mk p)) →
      resolve_gh_ref env ref =
        (.error ("WORKSPACE_DIR conflict for '" ++ String.mk p ++ "': existing="
            ++ w ++ ", derived="
            ++ derivedWorkspaceDir env (String.mk u) (String.mk p)), env)) ∧
    (∀ r env', resolve_gh_ref env ref = (.ok r, env') →
      r.primary_workspace_dir =
        derivedWorkspaceDir env (String.mk u) (String.mk p)) ∧
    (∀ r env', resolve_gh_ref env ref = (.ok r, env') →
      (resolve_gh_ref env' ref).1 = .ok r) := by
  have hred : ∀ e : ResolveEnv, resolve_gh_ref e ref =
      resolveMode1 e (String.mk u) (String.mk p) := by
    intro e
    unfold resolve_gh_ref
    rw [hc, hp]
    rfl
  refine ⟨?_, ?_, ?_⟩
  · intro hnorm
    rw [hred]
    unfold resolveMode1
    have hconf : mode1Conflict env (String.mk u) (String.mk p) = true := by
      unfold mode1Conflict
      rw [hw]
      simp only [Option.getD_some, pyTruthy_of_ne_empty hne, Bool.true_and,
        Bool.not_eq_true']
      exact beq_eq_false_iff_ne.mpr hnorm
    rw [hconf]
    unfold conflictMsg
    rw [hw]
    rfl
  · intro r env' h
    rw [hred] at h
    obtain ⟨hr, -, -, -, -, -⟩ := resolveMode1_ok h
    rw [hr]
  · intro r env' h
    rw [hred] at h
    obtain ⟨hr, hhome, hdb, -, hw', hd'⟩ := resolveMode1_ok h
    rw [hred]
    have hstable := resolveMode1_stable env' (String.mk u) (String.mk p)
      (by rw [mode1ProjectFile_congr hhome, derivedWorkspaceDir_congr hhome]
          exact hw')
      (by rw [derivedWorkspaceDir_congr hhome]
          exact hd')
    rw [hstable, hr,
      mode1ProjectFile_congr hhome, derivedWorkspaceDir_congr hhome, hdb]

/-- Witness for C3: with the derived directory already stored, a second
resolution of `octo/hello` returns the same successful record. -/
theorem resolve_repo_path_conflict_or_stable_witness :
    (resolve_gh_ref
        (setWsDir
          { home := "/home/u",
            workspaceDirOf := fun f =>
              if f = "/home/u/.sase/projects/hello/hello.gp"
              then some "/home/u/projects/github/octo/hello/" else none,
            isDir := fun _ => true, fileExists := fun _ => false,
            defaultBranch := fun _ => "main", changespecs := [],
            cloneOk := true, cloneErr := "", normpath := id,
            ghUsername := none }
          "/home/u/.sase/projects/hello/hello.gp"
          "/home/u/projects/github/octo/hello/")
        "octo/hello").1 =
      .ok { project_file := "/home/u/.sase/projects/hello/hello.gp",
            project_name := "hello",
            primary_workspace_dir := "/home/u/projects/github/octo/hello/",
            checkout_target := "main" } :=
  (resolve_repo_path_conflict_or_stable
      { home := "/home/u",
        workspaceDirOf := fun f =>
          if f = "/home/u/.sase/projects/hello/hello.gp"
          then some "/home/u/projects/github/octo/hello/" else none,
        isDir := fun _ => true, fileExists := fun _ => false,
        defaultBranch := fun _ => "main", changespecs := [],
        cloneOk := true, cloneErr := "", normpath := id,
        ghUsername := none }
      "octo/hello" "octo".data "hello".data
      "/home/u/projects/github/octo/hello/"
      (by decide) (by decide) rfl (by decide)).2.2 _ _ rfl

/-- C8: a separator-free reference whose project-shorthand record
exists but records no workspace directory does not fail at the
shorthand stage: resolution proceeds to the named-change search, and
when no change record's name matches either, it fails with the
"cannot resolve" error. -/
theorem resolve_shorthand_fallthrough (env : ResolveEnv) (ref : String)
    (hc : pyContainsChar '/' ref = false)
    (hdir : env.isDir (shorthandDir env ref) = true)
    (hfile : env.fileExists (shorthandFile env ref) = true)
    (hwd : pyTruthy (env.workspaceDirOf (shorthandFile env ref)) = false) :
    resolve_gh_ref env ref = resolveMode3 env ref ∧
    (env.changespecs.find? (fun cs => cs.name == ref) = none →
      resolve_gh_ref env ref =
        (.error ("Cannot resolve gh_ref '" ++ ref ++ "'"), env)) := by
  have h1 : resolve_gh_ref env ref = resolveMode3 env ref := by
    unfold resolve_gh_ref
    rw [hc, hdir, hfile, hwd]
    simp
  refine ⟨h1, fun hfind => ?_⟩
  rw [h1]
  unfold resolveMode3
  rw [hfind]

/-- Witness for C8: the shorthand `hello` exists without a workspace
directory and no change record matches, so resolution fails with
"Cannot resolve". -/
theorem resolve_shorthand_fallthrough_witness :
    resolve_gh_ref
        { home := "/home/u", workspaceDirOf := fun _ => none,
          isDir := fun _ => true, fileExists := fun _ => true,
          defaultBranch := fun _ => "main", changespecs := [],
          cloneOk := true, cloneErr := "", normpath := id,
          ghUsername := none } "hello" =
      (.error ("Cannot resolve gh_ref '" ++ "hello" ++ "'"),
       { home := "/home/u", workspaceDirOf := fun _ => none,
         isDir := fun _ => true, fileExists := fun _ => true,
         defaultBranch := fun _ => "main", changespecs := [],
         cloneOk := true, cloneErr := "", normpath := id,
         ghUsername := none }) :=
  (resolve_shorthand_fallthrough
      { home := "/home/u", workspaceDirOf := fun _ => none,
        isDir := fun _ => true, fileExists := fun _ => true,
        defaultBranch := fun _ => "main", changespecs := [],
        cloneOk := true, cloneErr := "", normpath := id,
        ghUsername := none }
      "hello" (by decide) rfl rfl rfl).2 rfl

/-- C10: repository-path resolution is insensitive to leading and
trailing path separators: padding an `owner/project` reference with
any number of `'/'` characters on either side yields the same
resolution outcome as the bare form. -/
theorem resolve_pad_insensitive (env : ResolveEnv) (s : String) (i j : Nat)
    (u p : List Char)
    (hc : pyContainsChar '/' s = true)
    (hp : pySplit '/' (pyStrip '/' s.data) = [u, p]) :
    resolve_gh_ref env
        (String.mk (List.replicate i '/') ++ s ++ String.mk (List.replicate j '/'))
      = resolve_gh_ref env s := by
  have hdata : (String.mk (List.replicate i '/') ++ s
      ++ String.mk (List.replicate j '/')).data
      = List.replicate i '/' ++ s.data ++ List.replicate j '/' := by
    simp [String.data_append]
  have hcontains : pyContainsChar '/'
      (String.mk (List.replicate i '/') ++ s ++ String.mk (List.replicate j '/'))
        = true := by
    unfold pyContainsChar at hc ⊢
    rw [hdata]
    simp only [List.elem_eq_mem, decide_eq_true_eq, List.mem_append] at hc ⊢
    tauto
  have hstrip : pyStrip '/' (String.mk (List.replicate i '/') ++ s
      ++ String.mk (List.replicate j '/')).data = pyStrip '/' s.data := by
    rw [hdata]
    exact pyStrip_pad '/' i j s.data
  unfold resolve_gh_ref
  rw [hcontains, hc, hstrip, hp]
  rfl

/-- Witness for C10: `/octo/hello/` resolves exactly like
`octo/hello`. -/
theorem resolve_pad_insensitive_witness :
    resolve_gh_ref
        { home := "/home/u", workspaceDirOf := fun _ => none,
          isDir := fun _ => true, fileExists := fun _ => false,
          defaultBranch := fun _ => "main", changespecs := [],
          cloneOk := true, cloneErr := "", normpath := id,
          ghUsername := none }
        (String.mk (List.replicate 1 '/') ++ "octo/hello"
          ++ String.mk (List.replicate 1 '/')) =
      resolve_gh_ref
        { home := "/home/u", workspaceDirOf := fun _ => none,
          isDir := fun _ => true, fileExists := fun _ => false,
          defaultBranch := fun _ => "main", changespecs := [],
          cloneOk := true, cloneErr := "", normpath := id,
          ghUsername := none } "octo/hello" :=
  resolve_pad_insensitive _ "octo/hello" 1 1 "octo".data "hello".data
    (by decide) (by decide)

end SaseGithub
